import Mathlib

/-!
Shallow embedding of `src/flask.py`: a minimal authenticated CRUD backend
(register/login with signed bearer tokens, and CRUD on a `Post` resource).

Modelling conventions:
* Machine state is the relational store: a list of `User` rows and a list of
  `Post` rows, kept in insertion order (which coincides with primary-key order,
  since SQLite assigns `max id + 1` to each new row).
* JWT tokens are modelled symbolically: `jwt.encode` produces a structured
  token carrying its payload and a signature term that records the secret and
  the signed payload; `jwt.decode` checks the signature by structural equality
  and then validates the `exp` claim against the current instant (seconds).
  Arbitrary non-token input strings are the `malformed` constructor.
* Each handler is a pure function from its inputs and the store to a
  `Response` (status code plus the JSON body it returns, one constructor per
  distinct `jsonify` shape appearing in the source) and the updated store.
* The blanket `except:` in `token_required` and the `abort(404)` /
  `abort(500)` paths are modelled by the corresponding error responses.
-/

namespace Backend

/-- The signing secret `app.config["SECRET_KEY"] = "super-secret-key"` (flask.py line 34). -/
def SECRET_KEY : String := "super-secret-key"

/-- A symbolic HS256 signature: it binds the signing secret and the payload
(`user_id` and `exp`) that were signed.  Verification is structural equality,
so a signature made with a different secret, or over a different payload,
never verifies. -/
structure Sig where
  secret : String
  user_id : Nat
  exp : Nat
deriving DecidableEq, Repr

/-- The domain of strings presented in the `Authorization` header.  A
structurally well-formed JWT carries a payload (`user_id`, `exp`) and a
signature; every other input string is `malformed` (carrying the raw text). -/
inductive TokenString where
  | token (user_id : Nat) (exp : Nat) (sig : Sig)
  | malformed (raw : String)
deriving DecidableEq, Repr

/-- Model of `jwt.encode({"user_id": user_id, "exp": exp}, secret, algorithm="HS256")`
(flask.py lines 163-170): the signature covers the payload with the given
secret. -/
def jwtEncode (user_id exp : Nat) (secret : String) : TokenString :=
  .token user_id exp ⟨secret, user_id, exp⟩

/-- The two authentication failures observable at the auth gate
(`{"error": "Token missing"}` and `{"error": "Invalid token"}`). -/
inductive AuthError where
  | missing
  | invalid
deriving DecidableEq, Repr

/-- Model of `jwt.decode(token, secret, algorithms=["HS256"])` at instant `now`
(flask.py lines 110-114): malformed input, a signature that does not verify
against `secret`, and an expired `exp` claim (`exp ≤ now`) all raise; the
blanket `except:` at line 119 collapses every such failure to the single
`invalid` error.  On success the decoded `user_id` is returned. -/
def jwtDecode (tok : TokenString) (secret : String) (now : Nat) :
    Except AuthError Nat :=
  match tok with
  | .malformed _ => .error .invalid
  | .token uid exp sig =>
    if sig = ⟨secret, uid, exp⟩ then
      if exp ≤ now then .error .invalid else .ok uid
    else .error .invalid

/-- A row of the `user` table (flask.py lines 52-61). -/
structure User where
  id : Nat
  username : String
  password : String
deriving DecidableEq, Repr

/-- A row of the `post` table (flask.py lines 65-75); `title`, `content` and
`user_id` are nullable columns. -/
structure Post where
  id : Nat
  title : Option String
  content : Option String
  user_id : Option Nat
deriving DecidableEq, Repr

/-- The persistent store: the two tables, rows in insertion order. -/
structure DB where
  users : List User
  posts : List Post
deriving DecidableEq, Repr

/-- SQLite assigns `max(id) + 1` (1 on an empty table) to a new `user` row. -/
def nextUserId (db : DB) : Nat := (db.users.map User.id).foldr max 0 + 1

/-- SQLite assigns `max(id) + 1` (1 on an empty table) to a new `post` row. -/
def nextPostId (db : DB) : Nat := (db.posts.map Post.id).foldr max 0 + 1

/-- One element of the array returned by `GET /posts`
(flask.py lines 190-197). -/
structure PostItem where
  id : Nat
  title : Option String
  content : Option String
deriving DecidableEq, Repr

/-- The object `{"id": p.id, "title": p.title, "content": p.content}`. -/
def postItem (p : Post) : PostItem := ⟨p.id, p.title, p.content⟩

/-- The JSON bodies produced by the handlers, one constructor per distinct
`jsonify` shape in the source. -/
inductive Body where
  /-- JSON `{"error": msg}` -/
  | error (msg : String)
  /-- JSON `{"message": msg}` -/
  | message (msg : String)
  /-- JSON `{"token": t}` -/
  | token (t : TokenString)
  /-- a JSON array of `{id, title, content}` objects -/
  | posts (items : List PostItem)
  /-- JSON `{"status": "ok"}` -/
  | health
deriving DecidableEq, Repr

/-- An HTTP response: status code and JSON body. -/
structure Response where
  status : Nat
  body : Body
deriving DecidableEq, Repr

/-- The decorator `token_required` (flask.py lines 98-126): reads the `Authorization`
header (`none` models an absent — or, via the falsy check `if not token`,
empty — header and short-circuits with 401 `Token missing` before any decode
is attempted); otherwise decodes the token, answering 401 `Invalid token` on
any decode failure, and only on success invokes the wrapped handler with the
decoded `user_id` bound (the `g.user_id` binding). -/
def token_required (header : Option TokenString) (now : Nat)
    (f : Nat → DB → Response × DB) (db : DB) : Response × DB :=
  match header with
  | none => (⟨401, .error "Token missing"⟩, db)
  | some tok =>
    match jwtDecode tok SECRET_KEY now with
    | .error _ => (⟨401, .error "Invalid token"⟩, db)
    | .ok uid => f uid db

/-- Handler `register` (flask.py lines 132-147): inserts a new `User` row.  A
duplicate username violates the unique constraint; the resulting unhandled
`IntegrityError` surfaces as the generic 500 handler's
`{"error": "Server error"}` and commits nothing. -/
def register (username password : String) (db : DB) : Response × DB :=
  if db.users.any (fun u => u.username = username) then
    (⟨500, .error "Server error"⟩, db)
  else
    (⟨201, .message "User created"⟩,
     { db with users := db.users ++ [⟨nextUserId db, username, password⟩] })

/-- Handler `login` (flask.py lines 151-172): finds the first `User` row with the
given username (`User.query.filter_by(username=...).first()`); answers 401
`Invalid credentials` if absent or the stored password differs; otherwise
returns a token signed with `SECRET_KEY` whose payload is the user's id and
`exp = now + 1 hour` (3600 seconds). -/
def login (username password : String) (now : Nat) (db : DB) :
    Response × DB :=
  match db.users.find? (fun u => u.username = username) with
  | none => (⟨401, .error "Invalid credentials"⟩, db)
  | some user =>
    if user.password ≠ password then
      (⟨401, .error "Invalid credentials"⟩, db)
    else
      (⟨200, .token (jwtEncode user.id (now + 3600) SECRET_KEY)⟩, db)

/-- Model of `Post.query.paginate(page=page, per_page=per_page)` with flask-sqlalchemy
defaults (`error_out=True`): aborts with 404 when `page < 1`, or when the
requested page is empty and is not page 1; otherwise the items are
`offset((page-1)*per_page).limit(per_page)` of the table in id order. -/
def paginate (posts : List Post) (page : Nat) : Option (List Post) :=
  if page < 1 then none
  else
    let items := (posts.drop ((page - 1) * 5)).take 5
    if items.isEmpty ∧ page ≠ 1 then none else some items

/-- Handler `get_posts` (flask.py lines 178-199): paginates the `post` table with
`per_page = 5` and serializes each item; a `paginate` abort reaches the 404
handler (`{"error": "Not found"}`).  Reads only, so the store is not
returned. -/
def get_posts (page : Nat) (db : DB) : Response :=
  match paginate db.posts page with
  | none => ⟨404, .error "Not found"⟩
  | some items => ⟨200, .posts (items.map postItem)⟩

/-- The JSON body of `POST /posts`.  `title` and `content` are looked up with
`data["title"]` / `data["content"]`, so `none` (key absent) raises `KeyError`;
a present key may still hold JSON `null` (the inner `none`).  Any
client-supplied `user_id` field is never read by the handler. -/
structure CreateBody where
  title : Option (Option String)
  content : Option (Option String)
  user_id : Option Nat
deriving DecidableEq, Repr

/-- Handler `create_post` (flask.py lines 205-217), after the auth gate bound `uid`:
inserts a `Post` row whose `user_id` is the bound identity (`g.user_id`),
never the body's `user_id` field.  A body missing `title` or `content`
raises `KeyError` outside the gate's `try`, surfacing as the generic 500. -/
def create_post (body : CreateBody) (uid : Nat) (db : DB) : Response × DB :=
  match body.title, body.content with
  | some t, some c =>
    (⟨201, .message "Post created"⟩,
     { db with posts := db.posts ++ [⟨nextPostId db, t, c, some uid⟩] })
  | _, _ => (⟨500, .error "Server error"⟩, db)

/-- The JSON body of `PUT /posts/<id>`.  Each field is `none` when the key is
absent from the body and `some v` when present with value `v` (where `v` may
itself be JSON `null`): `data.get("title", post.title)` distinguishes
exactly these two cases. -/
structure PatchBody where
  title : Option (Option String)
  content : Option (Option String)
deriving DecidableEq, Repr

/-- Handler `update_post` (flask.py lines 223-235), after the auth gate (the bound
identity is not consulted): `Post.query.get_or_404(id)` answers 404
`Not found` when no row has that id; otherwise each of `title`/`content` is
overwritten with the body's value when the key is present (even with `null`)
and kept otherwise, and the row is committed in place. -/
def update_post (id : Nat) (body : PatchBody) (_uid : Nat) (db : DB) :
    Response × DB :=
  match db.posts.find? (fun p => p.id = id) with
  | none => (⟨404, .error "Not found"⟩, db)
  | some _ =>
    (⟨200, .message "Post updated"⟩,
     { db with posts := db.posts.map (fun p =>
        if p.id = id then
          { p with title := body.title.getD p.title,
                   content := body.content.getD p.content }
        else p) })

/-- Handler `delete_post` (flask.py lines 241-247), after the auth gate (the bound
identity is not consulted): `Post.query.get_or_404(id)` answers 404
`Not found` when no row has that id; otherwise the row with that primary key
is deleted. -/
def delete_post (id : Nat) (_uid : Nat) (db : DB) : Response × DB :=
  match db.posts.find? (fun p => p.id = id) with
  | none => (⟨404, .error "Not found"⟩, db)
  | some _ =>
    (⟨200, .message "Post deleted"⟩,
     { db with posts := db.posts.filter (fun p => p.id ≠ id) })

/-- Route `POST /posts` as wired: `token_required` wrapping `create_post`. -/
def createPostRoute (header : Option TokenString) (now : Nat)
    (body : CreateBody) (db : DB) : Response × DB :=
  token_required header now (create_post body) db

/-- Route `PUT /posts/<id>` as wired: `token_required` wrapping `update_post`. -/
def updatePostRoute (header : Option TokenString) (now : Nat) (id : Nat)
    (body : PatchBody) (db : DB) : Response × DB :=
  token_required header now (update_post id body) db

/-- Route `DELETE /posts/<id>` as wired: `token_required` wrapping
`delete_post`. -/
def deletePostRoute (header : Option TokenString) (now : Nat) (id : Nat)
    (db : DB) : Response × DB :=
  token_required header now (delete_post id) db

/-- Route `GET /health` (flask.py lines 267-269). -/
def health : Response := ⟨200, .health⟩

/-- A store holding exactly posts 1..12 (used for the pagination claim):
post `i` has title `"t i"` and content `"c i"`, owned by user 1. -/
def db12 : DB :=
  { users := [⟨1, "alice", "pw1"⟩],
    posts := (List.range 12).map (fun i =>
      ⟨i + 1, some ("t" ++ toString (i + 1)), some ("c" ++ toString (i + 1)),
       some 1⟩) }

instance : DecidableEq (Except AuthError Nat) := fun a b =>
  match a, b with
  | .ok x, .ok y => decidable_of_iff (x = y) (by simp)
  | .error x, .error y => decidable_of_iff (x = y) (by simp)
  | .ok _, .error _ => .isFalse (fun h => by cases h)
  | .error _, .ok _ => .isFalse (fun h => by cases h)

/-! ### Helper lemmas shared by the claim theorems -/

/-- The auth gate forwards to the wrapped handler on successful decode. -/
theorem token_required_ok {tok : TokenString} {now uid : Nat}
    (hdec : jwtDecode tok SECRET_KEY now = .ok uid)
    (f : Nat → DB → Response × DB) (db : DB) :
    token_required (some tok) now f db = f uid db := by
  simp [token_required, hdec]

/-- The auth gate answers 401 `Invalid token` on any decode failure. -/
theorem token_required_err {tok : TokenString} {now : Nat} {e : AuthError}
    (hdec : jwtDecode tok SECRET_KEY now = .error e)
    (f : Nat → DB → Response × DB) (db : DB) :
    token_required (some tok) now f db =
      (⟨401, .error "Invalid token"⟩, db) := by
  simp [token_required, hdec]

/-- When some row has the requested id, `Post.query.get(id)` finds a row with
that id. -/
theorem find?_post_of_mem {db : DB} {id : Nat}
    (hex : ∃ p ∈ db.posts, p.id = id) :
    ∃ p, db.posts.find? (fun p => p.id = id) = some p ∧ p.id = id := by
  cases h : db.posts.find? (fun p => p.id = id) with
  | none =>
    rw [List.find?_eq_none] at h
    obtain ⟨p, hp, hpid⟩ := hex
    exact absurd (by simpa using hpid) (by simpa using h p hp)
  | some p =>
    exact ⟨p, rfl, by simpa using List.find?_some h⟩

/-- Evaluation of `update_post` on an existing id: 200, and the row is merged in place. -/
theorem update_post_ok {id : Nat} {body : PatchBody} {uid : Nat} {db : DB}
    (hex : ∃ p ∈ db.posts, p.id = id) :
    update_post id body uid db =
      (⟨200, .message "Post updated"⟩,
       { db with posts := db.posts.map (fun p =>
          if p.id = id then
            { p with title := body.title.getD p.title,
                     content := body.content.getD p.content }
          else p) }) := by
  obtain ⟨p, hp, -⟩ := find?_post_of_mem hex
  simp [update_post, hp]

/-- Evaluation of `delete_post` on an existing id: 200, and the rows with that id are
removed. -/
theorem delete_post_ok {id : Nat} {uid : Nat} {db : DB}
    (hex : ∃ p ∈ db.posts, p.id = id) :
    delete_post id uid db =
      (⟨200, .message "Post deleted"⟩,
       { db with posts := db.posts.filter (fun p => p.id ≠ id) }) := by
  obtain ⟨p, hp, -⟩ := find?_post_of_mem hex
  simp [delete_post, hp]

/-- With pairwise-distinct usernames, two rows sharing a username are the
same row. -/
theorem username_inj {db : DB}
    (huniq : db.users.Pairwise (fun a b => a.username ≠ b.username))
    {a b : User} (ha : a ∈ db.users) (hb : b ∈ db.users)
    (h : a.username = b.username) : a = b := by
  by_contra hne
  have hs : Symmetric (fun a b : User => a.username ≠ b.username) :=
    fun x y hxy h2 => hxy h2.symm
  exact huniq.forall hs ha hb hne h

/-- Removing the rows with a given id, when the ids are distinct and one row
has that id, shortens the table by exactly one. -/
theorem length_filter_delete {l : List Post} {id : Nat}
    (hnodup : (l.map Post.id).Nodup) (hex : ∃ p ∈ l, p.id = id) :
    (l.filter (fun p => p.id ≠ id)).length + 1 = l.length := by
  induction l with
  | nil => simp at hex
  | cons p l ih =>
    simp only [List.map_cons, List.nodup_cons] at hnodup
    obtain ⟨hpnot, hnd⟩ := hnodup
    by_cases hpid : p.id = id
    · have hall : ∀ q ∈ l, (fun p : Post => decide (p.id ≠ id)) q = true := by
        intro q hq
        simp only [decide_eq_true_eq]
        intro h
        exact hpnot (by rw [hpid, ← h]; exact List.mem_map_of_mem Post.id hq)
      rw [List.filter_cons_of_neg (by simp [hpid]),
        List.filter_eq_self.mpr hall]
      simp
    · have hex' : ∃ q ∈ l, q.id = id := by
        obtain ⟨q, hq, hqid⟩ := hex
        rcases List.mem_cons.mp hq with rfl | hq'
        · exact absurd hqid hpid
        · exact ⟨q, hq', hqid⟩
      rw [List.filter_cons_of_pos (by simp [hpid])]
      have h2 := ih hnd hex'
      simp only [List.length_cons]
      omega

/-- Decoding a token freshly issued with the process secret succeeds while
the expiry instant is still in the future. -/
theorem jwtDecode_jwtEncode (u e now : Nat) (h : now < e) :
    jwtDecode (jwtEncode u e SECRET_KEY) SECRET_KEY now = .ok u := by
  show (if (⟨SECRET_KEY, u, e⟩ : Sig) = ⟨SECRET_KEY, u, e⟩ then
      if e ≤ now then Except.error AuthError.invalid else Except.ok u
    else Except.error AuthError.invalid) = Except.ok u
  rw [if_pos rfl, if_neg (by omega)]

/-- With pairwise-distinct usernames, `login` answers 401
`Invalid credentials` exactly when no stored row matches both the username
and the password. -/
theorem login_fails_iff {db : DB}
    (huniq : db.users.Pairwise (fun a b => a.username ≠ b.username))
    (un pw : String) (now : Nat) :
    ((login un pw now db).1 = ⟨401, .error "Invalid credentials"⟩ ↔
      ¬ ∃ u ∈ db.users, u.username = un ∧ u.password = pw) := by
  cases h : db.users.find? (fun u => u.username = un) with
  | none =>
    have hlog : (login un pw now db).1 =
        ⟨401, .error "Invalid credentials"⟩ := by
      unfold login
      simp only [h]
    rw [List.find?_eq_none] at h
    refine iff_of_true hlog ?_
    rintro ⟨u, hu, h1, h2⟩
    exact absurd h1 (by simpa using h u hu)
  | some u =>
    have hmem := List.mem_of_find?_eq_some h
    have hun : u.username = un := by simpa using List.find?_some h
    by_cases hpw : u.password = pw
    · have hlog : (login un pw now db).1 =
          ⟨200, .token (jwtEncode u.id (now + 3600) SECRET_KEY)⟩ := by
        unfold login
        simp only [h]
        rw [if_neg (by simp [hpw])]
      rw [hlog]
      refine iff_of_false ?_ ?_
      · intro hcontra
        have h2 : (200 : Nat) = 401 := congrArg Response.status hcontra
        exact absurd h2 (by decide)
      · intro hn
        exact hn ⟨u, hmem, hun, hpw⟩
    · have hlog : (login un pw now db).1 =
          ⟨401, .error "Invalid credentials"⟩ := by
        unfold login
        simp only [h]
        rw [if_pos (by simp [hpw])]
      refine iff_of_true hlog ?_
      rintro ⟨v, hv, hvun, hvpw⟩
      have hvu : v = u := username_inj huniq hv hmem (by rw [hvun, hun])
      exact hpw (hvu ▸ hvpw)

/-! ### Claim theorems -/

/-- C1: token verification fails with the single 401 `Invalid token`
response exactly when the signature does not verify against the process
secret, the token is structurally malformed, or the expiry instant has
passed; every failure yields the same caller-observable result, and
verification never produces any other error on any input. -/
theorem C1_verification_failure_characterization (tok : TokenString)
    (now : Nat) :
    (jwtDecode tok SECRET_KEY now = .error .invalid ↔
      ((∃ raw, tok = .malformed raw) ∨
       (∃ uid exp sig, tok = .token uid exp sig ∧
          sig ≠ ⟨SECRET_KEY, uid, exp⟩) ∨
       (∃ uid exp sig, tok = .token uid exp sig ∧ exp ≤ now))) ∧
    (jwtDecode tok SECRET_KEY now = .error .invalid ∨
      ∃ uid, jwtDecode tok SECRET_KEY now = .ok uid) ∧
    (∀ e, jwtDecode tok SECRET_KEY now = .error e →
      ∀ f db, token_required (some tok) now f db =
        (⟨401, Body.error "Invalid token"⟩, db)) := by
  refine ⟨?_, ?_, fun e he f db => token_required_err he f db⟩
  · cases tok with
    | malformed raw => simp [jwtDecode]
    | token uid exp sig =>
      by_cases hsig : sig = ⟨SECRET_KEY, uid, exp⟩
      · by_cases hexp : exp ≤ now
        · refine iff_of_true ?_ (.inr (.inr ⟨uid, exp, sig, rfl, hexp⟩))
          simp only [jwtDecode]
          rw [if_pos hsig, if_pos hexp]
        · refine iff_of_false ?_ ?_
          · simp only [jwtDecode]
            rw [if_pos hsig, if_neg hexp]
            simp
          · rintro (⟨raw, h⟩ | ⟨u, x, s, h, hne⟩ | ⟨u, x, s, h, hle⟩)
            · cases h
            · cases h; exact hne hsig
            · cases h; exact hexp hle
      · refine iff_of_true ?_ (.inr (.inl ⟨uid, exp, sig, rfl, hsig⟩))
        simp only [jwtDecode]
        rw [if_neg hsig]
  · cases h : jwtDecode tok SECRET_KEY now with
    | ok uid => exact .inr ⟨uid, rfl⟩
    | error e =>
      left
      have he : e = .invalid := by
        cases tok with
        | malformed raw =>
          exact (Except.error.inj h).symm
        | token uid exp sig =>
          simp only [jwtDecode] at h
          by_cases hsig : sig = ⟨SECRET_KEY, uid, exp⟩
          · by_cases hexp : exp ≤ now
            · rw [if_pos hsig, if_pos hexp] at h
              exact (Except.error.inj h).symm
            · rw [if_pos hsig, if_neg hexp] at h
              cases h
          · rw [if_neg hsig] at h
            exact (Except.error.inj h).symm
      subst he
      rfl

/-- C2: verifying a token immediately after issuance for user `u` (same
secret, expiry one hour — 3600 seconds — in the future) succeeds and
returns `u`. -/
theorem C2_issue_verify_roundtrip (u now : Nat) :
    jwtDecode (jwtEncode u (now + 3600) SECRET_KEY) SECRET_KEY now =
      .ok u := by
  show (if (⟨SECRET_KEY, u, now + 3600⟩ : Sig) =
      ⟨SECRET_KEY, u, now + 3600⟩ then
      if now + 3600 ≤ now then Except.error AuthError.invalid
      else Except.ok u
    else Except.error AuthError.invalid) = Except.ok u
  rw [if_pos rfl, if_neg (by omega)]

/-- C3: the auth gate answers 401 `Token missing` immediately when the
header is absent, without any verification (the result is a constant, for
every handler and instant); and for every request the result is either one
of the two 401 responses with the store untouched, or the wrapped handler
applied to the successfully verified user id. -/
theorem C3_auth_gate (header : Option TokenString) (now : Nat)
    (f : Nat → DB → Response × DB) (db : DB) :
    token_required none now f db =
      (⟨401, Body.error "Token missing"⟩, db) ∧
    ((header = none ∧ token_required header now f db =
        (⟨401, Body.error "Token missing"⟩, db)) ∨
     (∃ tok e, header = some tok ∧
        jwtDecode tok SECRET_KEY now = .error e ∧
        token_required header now f db =
          (⟨401, Body.error "Invalid token"⟩, db)) ∨
     (∃ tok uid, header = some tok ∧
        jwtDecode tok SECRET_KEY now = .ok uid ∧
        token_required header now f db = f uid db)) := by
  refine ⟨rfl, ?_⟩
  cases header with
  | none => exact .inl ⟨rfl, rfl⟩
  | some tok =>
    cases h : jwtDecode tok SECRET_KEY now with
    | error e => exact .inr (.inl ⟨tok, e, rfl, h, token_required_err h f db⟩)
    | ok uid => exact .inr (.inr ⟨tok, uid, rfl, h, token_required_ok h f db⟩)

/-- C4: a create-post request whose Authorization header is missing or does
not verify answers 401 and leaves the `post` table untouched; a verified
request inserts exactly one row whose owner reference is the authenticated
user id from the token, regardless of any client-supplied `user_id` field in
the body. -/
theorem C4_create_post_auth_and_owner (header : Option TokenString)
    (now : Nat) (body : CreateBody) (db : DB) :
    ((header = none ∨ ∃ tok e, header = some tok ∧
        jwtDecode tok SECRET_KEY now = .error e) →
      (createPostRoute header now body db).1.status = 401 ∧
      (createPostRoute header now body db).2 = db) ∧
    (∀ tok uid t c, header = some tok →
      jwtDecode tok SECRET_KEY now = .ok uid →
      body.title = some t → body.content = some c →
      createPostRoute header now body db =
        (⟨201, .message "Post created"⟩,
         { db with posts := db.posts ++ [⟨nextPostId db, t, c, some uid⟩] })) := by
  constructor
  · rintro (rfl | ⟨tok, e, rfl, he⟩)
    · exact ⟨rfl, rfl⟩
    · rw [createPostRoute, token_required_err he]
      exact ⟨rfl, rfl⟩
  · rintro tok uid t c rfl hdec ht hc
    rw [createPostRoute, token_required_ok hdec]
    unfold create_post
    rw [ht, hc]

/-- C5: registering a fresh username and logging in with the same
credentials succeeds (201 then 200) and yields a token that verifies to the
new user's id; and (with the unique-username constraint) `login` answers 401
`Invalid credentials` exactly when no stored user matches both the supplied
username and password. -/
theorem C5_register_then_login (username password : String) (now : Nat)
    (db : DB)
    (hfresh : ∀ u ∈ db.users, u.username ≠ username)
    (huniq : db.users.Pairwise (fun a b => a.username ≠ b.username)) :
    (register username password db).1 = ⟨201, .message "User created"⟩ ∧
    login username password now (register username password db).2 =
      (⟨200, .token (jwtEncode (nextUserId db) (now + 3600) SECRET_KEY)⟩,
       (register username password db).2) ∧
    jwtDecode (jwtEncode (nextUserId db) (now + 3600) SECRET_KEY)
        SECRET_KEY now = .ok (nextUserId db) ∧
    (∀ un pw,
      ((login un pw now db).1 = ⟨401, .error "Invalid credentials"⟩ ↔
        ¬ ∃ u ∈ db.users, u.username = un ∧ u.password = pw)) := by
  have hany : ¬ (db.users.any (fun u => u.username = username) = true) := by
    rw [List.any_eq_true]
    rintro ⟨u, hu, h⟩
    exact hfresh u hu (by simpa using h)
  have hreg : register username password db =
      (⟨201, .message "User created"⟩,
       { db with users :=
          db.users ++ [⟨nextUserId db, username, password⟩] }) := by
    unfold register
    rw [if_neg hany]
  refine ⟨by rw [hreg], ?_, jwtDecode_jwtEncode _ _ _ (by omega),
    fun un pw => login_fails_iff huniq un pw now⟩
  rw [hreg]
  have hfind : (db.users ++
      [(⟨nextUserId db, username, password⟩ : User)]).find?
        (fun u => u.username = username) =
      some ⟨nextUserId db, username, password⟩ := by
    rw [List.find?_append]
    have h1 : db.users.find? (fun u => u.username = username) = none := by
      rw [List.find?_eq_none]
      intro x hx
      simpa using hfresh x hx
    rw [h1, Option.none_or]
    exact List.find?_cons_of_pos _ (by simp)
  unfold login
  simp only [hfind]
  rw [if_neg (by simp)]

/-- C6: an authenticated update of an existing post answers 200 and merges:
a field whose key is present in the body is overwritten with the supplied
value, a field whose key is omitted keeps its prior stored value (so a
title-only body leaves `content` unchanged), the post's id and owner
reference are untouched, and every other post — and the user table — is
unchanged, position by position. -/
theorem C6_partial_update_merge (tok : TokenString) (now id uid : Nat)
    (body : PatchBody) (db : DB)
    (hdec : jwtDecode tok SECRET_KEY now = .ok uid)
    (hex : ∃ p ∈ db.posts, p.id = id) :
    (updatePostRoute (some tok) now id body db).1 =
      ⟨200, .message "Post updated"⟩ ∧
    (updatePostRoute (some tok) now id body db).2.users = db.users ∧
    (updatePostRoute (some tok) now id body db).2.posts.length =
      db.posts.length ∧
    (∀ (i : Nat) (p : Post), db.posts[i]? = some p → p.id ≠ id →
      (updatePostRoute (some tok) now id body db).2.posts[i]? = some p) ∧
    (∀ (i : Nat) (p : Post), db.posts[i]? = some p → p.id = id →
      (updatePostRoute (some tok) now id body db).2.posts[i]? =
        some { p with title := body.title.getD p.title,
                      content := body.content.getD p.content }) := by
  have hroute : updatePostRoute (some tok) now id body db =
      (⟨200, .message "Post updated"⟩,
       { db with posts := db.posts.map (fun p =>
          if p.id = id then
            { p with title := body.title.getD p.title,
                     content := body.content.getD p.content }
          else p) }) := by
    rw [updatePostRoute, token_required_ok hdec, update_post_ok hex]
  rw [hroute]
  refine ⟨rfl, rfl, by simp, ?_, ?_⟩
  · intro i p hp hne
    show (db.posts.map _)[i]? = some p
    rw [List.getElem?_map, hp]
    simp [hne]
  · intro i p hp heq
    show (db.posts.map _)[i]? = some _
    rw [List.getElem?_map, hp]
    simp [heq]

/-- C7: an authenticated update or delete of a non-existent post id answers
404 `Not found` with the store untouched; an authenticated delete of an
existing id answers 200 and removes exactly the rows carrying that id
(leaving every other row and the user table in place, and — ids being
unique — shrinking the table by exactly one row). -/
theorem C7_notfound_and_delete_exact (tok : TokenString) (now id uid : Nat)
    (db : DB) (hdec : jwtDecode tok SECRET_KEY now = .ok uid) :
    ((∀ p ∈ db.posts, p.id ≠ id) →
      deletePostRoute (some tok) now id db =
        (⟨404, .error "Not found"⟩, db) ∧
      ∀ body, updatePostRoute (some tok) now id body db =
        (⟨404, .error "Not found"⟩, db)) ∧
    ((∃ p ∈ db.posts, p.id = id) →
      (deletePostRoute (some tok) now id db).1 =
        ⟨200, .message "Post deleted"⟩ ∧
      (deletePostRoute (some tok) now id db).2.users = db.users ∧
      (deletePostRoute (some tok) now id db).2.posts =
        db.posts.filter (fun p => p.id ≠ id) ∧
      (∀ q, q ∈ (deletePostRoute (some tok) now id db).2.posts ↔
        (q ∈ db.posts ∧ q.id ≠ id)) ∧
      ((db.posts.map Post.id).Nodup →
        (deletePostRoute (some tok) now id db).2.posts.length + 1 =
          db.posts.length)) := by
  constructor
  · intro hnone
    have hfind : db.posts.find? (fun p => p.id = id) = none := by
      rw [List.find?_eq_none]
      intro p hp
      simpa using hnone p hp
    constructor
    · rw [deletePostRoute, token_required_ok hdec]
      unfold delete_post
      simp only [hfind]
    · intro body
      rw [updatePostRoute, token_required_ok hdec]
      unfold update_post
      simp only [hfind]
  · intro hex
    have hroute : deletePostRoute (some tok) now id db =
        (⟨200, .message "Post deleted"⟩,
         { db with posts := db.posts.filter (fun p => p.id ≠ id) }) := by
      rw [deletePostRoute, token_required_ok hdec, delete_post_ok hex]
    rw [hroute]
    refine ⟨rfl, rfl, rfl, ?_, fun hnodup => length_filter_delete hnodup hex⟩
    intro q
    show q ∈ db.posts.filter (fun p => p.id ≠ id) ↔ _
    rw [List.mem_filter]
    simp

/-- Unfolded form of `paginate` (the `let` zeta-reduced). -/
theorem paginate_eq (posts : List Post) (page : Nat) :
    paginate posts page =
      if page < 1 then none
      else if ((posts.drop ((page - 1) * 5)).take 5).isEmpty ∧ page ≠ 1
        then none
      else some ((posts.drop ((page - 1) * 5)).take 5) := rfl

/-- Case form of `get_posts`: 404 on an out-of-range page, otherwise the
serialized slice. -/
theorem get_posts_eq (page : Nat) (db : DB) :
    get_posts page db =
      if page < 1 then ⟨404, .error "Not found"⟩
      else if ((db.posts.drop ((page - 1) * 5)).take 5).isEmpty ∧ page ≠ 1
        then ⟨404, .error "Not found"⟩
      else ⟨200, .posts (((db.posts.drop ((page - 1) * 5)).take 5).map
          postItem)⟩ := by
  unfold get_posts
  rw [paginate_eq]
  by_cases h1 : page < 1
  · rw [if_pos h1, if_pos h1]
  · rw [if_neg h1, if_neg h1]
    by_cases h2 : ((db.posts.drop ((page - 1) * 5)).take 5).isEmpty ∧
        page ≠ 1
    · rw [if_pos h2, if_pos h2]
    · rw [if_neg h2, if_neg h2]

/-- C8, counterexample: with the 12-post store, requesting page 4 answers
404 `Not found`, not an empty 200 array as the claim states. -/
theorem C8_counterexample :
    get_posts 4 db12 = ⟨404, .error "Not found"⟩ ∧
    get_posts 4 db12 ≠ ⟨200, .posts []⟩ := by
  constructor
  · decide
  · decide

/-- C8 (amended): listing returns the posts in id order in fixed pages of 5;
with 12 stored posts page 1 returns posts 1-5 and page 3 returns posts
11-12, but a page past the last (page 4 here) — like any page below 1 —
answers 404 `Not found` rather than an empty 200 array (only page 1 can
return an empty array); in general a page whose slice is non-empty (or page
1) returns exactly that slice of the table, serialized, and its items are in
ascending id order whenever the table is. -/
theorem C8_pagination_amended (db : DB) (page : Nat) :
    get_posts 1 db12 = ⟨200, .posts [⟨1, some "t1", some "c1"⟩,
      ⟨2, some "t2", some "c2"⟩, ⟨3, some "t3", some "c3"⟩,
      ⟨4, some "t4", some "c4"⟩, ⟨5, some "t5", some "c5"⟩]⟩ ∧
    get_posts 3 db12 = ⟨200, .posts [⟨11, some "t11", some "c11"⟩,
      ⟨12, some "t12", some "c12"⟩]⟩ ∧
    get_posts 4 db12 = ⟨404, .error "Not found"⟩ ∧
    (1 ≤ page → ((db.posts.drop ((page - 1) * 5)).take 5 ≠ [] ∨ page = 1) →
      get_posts page db = ⟨200, .posts
        (((db.posts.drop ((page - 1) * 5)).take 5).map postItem)⟩) ∧
    (1 ≤ page → (db.posts.drop ((page - 1) * 5)).take 5 = [] → page ≠ 1 →
      get_posts page db = ⟨404, .error "Not found"⟩) ∧
    (db.posts.Pairwise (fun p q => p.id < q.id) →
      ∀ items, get_posts page db = ⟨200, .posts items⟩ →
        items.Pairwise (fun a b => a.id < b.id)) := by
  refine ⟨by decide, by decide, by decide, ?_, ?_, ?_⟩
  · intro h1 hne
    rw [get_posts_eq, if_neg (by omega), if_neg ?_]
    rintro ⟨hemp, hp1⟩
    rcases hne with h | h
    · exact h (List.isEmpty_iff.mp hemp)
    · exact hp1 h
  · intro h1 hemp hp1
    rw [get_posts_eq, if_neg (by omega), if_pos ⟨by rw [hemp]; rfl, hp1⟩]
  · intro hsort items hitems
    rw [get_posts_eq] at hitems
    by_cases h1 : page < 1
    · rw [if_pos h1] at hitems
      simp at hitems
    · rw [if_neg h1] at hitems
      by_cases h2 : ((db.posts.drop ((page - 1) * 5)).take 5).isEmpty ∧
          page ≠ 1
      · rw [if_pos h2] at hitems
        simp at hitems
      · rw [if_neg h2] at hitems
        injection hitems with hstat hbody
        injection hbody with hlist
        subst hlist
        refine List.Pairwise.map postItem (fun a b h => h) ?_
        exact List.Pairwise.sublist
          ((List.take_sublist 5 _).trans (List.drop_sublist _ _)) hsort

/-- C9: no ownership check is enforced on update or delete — for every
existing post and every successfully authenticated user id (in particular
one differing from the post's owner), both operations answer 200. -/
theorem C9_no_ownership_check (tok : TokenString) (now id uid : Nat)
    (db : DB) (body : PatchBody)
    (hdec : jwtDecode tok SECRET_KEY now = .ok uid)
    (hex : ∃ p ∈ db.posts, p.id = id) :
    (updatePostRoute (some tok) now id body db).1 =
      ⟨200, .message "Post updated"⟩ ∧
    (deletePostRoute (some tok) now id db).1 =
      ⟨200, .message "Post deleted"⟩ := by
  constructor
  · rw [updatePostRoute, token_required_ok hdec, update_post_ok hex]
  · rw [deletePostRoute, token_required_ok hdec, delete_post_ok hex]

/-- C10: a field present in an update body with JSON `null` counts as
supplied, not omitted: a body carrying only `title = null` sets the stored
title to `null` (and a body carrying only `content = null` sets the stored
content to `null`) on the matching row, rather than keeping the prior
value. -/
theorem C10_null_field_overwrites (tok : TokenString) (now id uid : Nat)
    (db : DB)
    (hdec : jwtDecode tok SECRET_KEY now = .ok uid)
    (hex : ∃ p ∈ db.posts, p.id = id) :
    (∀ (i : Nat) (p : Post), db.posts[i]? = some p → p.id = id →
      (updatePostRoute (some tok) now id ⟨some none, none⟩ db).2.posts[i]? =
        some { p with title := none }) ∧
    (∀ (i : Nat) (p : Post), db.posts[i]? = some p → p.id = id →
      (updatePostRoute (some tok) now id ⟨none, some none⟩ db).2.posts[i]? =
        some { p with content := none }) := by
  constructor
  · intro i p hp heq
    rw [updatePostRoute, token_required_ok hdec, update_post_ok hex]
    show (db.posts.map _)[i]? = some _
    rw [List.getElem?_map, hp]
    simp [heq]
  · intro i p hp heq
    rw [updatePostRoute, token_required_ok hdec, update_post_ok hex]
    show (db.posts.map _)[i]? = some _
    rw [List.getElem?_map, hp]
    simp [heq]

/-! ### Concrete fixtures and witnesses -/

/-- A concrete token issued for user 2, expiring at instant 3600. -/
def tokC : TokenString := jwtEncode 2 3600 SECRET_KEY

/-- A concrete store: two users; post 1 is owned by user 1 and post 2 by
user 2. -/
def dbC : DB :=
  { users := [⟨1, "alice", "pw1"⟩, ⟨2, "bob", "pw2"⟩],
    posts := [⟨1, some "Hi", some "C", some 1⟩,
              ⟨2, none, some "d", some 2⟩] }

/-- Witness for C1 at a concrete malformed token. -/
theorem C1_verification_failure_characterization_witness :
    jwtDecode (.malformed "zzz") SECRET_KEY 0 = .error .invalid ∧
    token_required (some (.malformed "zzz")) 0
      (fun _ db => (⟨200, .health⟩, db)) dbC =
      (⟨401, .error "Invalid token"⟩, dbC) :=
  ⟨(C1_verification_failure_characterization (.malformed "zzz") 0).1.mpr
      (.inl ⟨"zzz", rfl⟩),
   (C1_verification_failure_characterization (.malformed "zzz") 0).2.2
      .invalid (by decide) (fun _ db => (⟨200, .health⟩, db)) dbC⟩

/-- Witness for C3 at a concrete absent header. -/
theorem C3_auth_gate_witness :
    token_required none 0 (fun _ db => (⟨200, .health⟩, db)) dbC =
      (⟨401, .error "Token missing"⟩, dbC) :=
  (C3_auth_gate none 0 (fun _ db => (⟨200, .health⟩, db)) dbC).1

/-- Witness for C4: a verified create whose body carries a bogus client
`user_id` of 999 still inserts owner 2 (the token's id). -/
theorem C4_create_post_auth_and_owner_witness :
    createPostRoute (some tokC) 0
      ⟨some (some "Hi"), some (some "C"), some 999⟩ dbC =
      (⟨201, .message "Post created"⟩,
       { dbC with posts := dbC.posts ++
          [⟨nextPostId dbC, some "Hi", some "C", some 2⟩] }) :=
  (C4_create_post_auth_and_owner (some tokC) 0
      ⟨some (some "Hi"), some (some "C"), some 999⟩ dbC).2
    tokC 2 (some "Hi") (some "C") rfl (by decide) rfl rfl

/-- Witness for C5 at a concrete fresh registration. -/
theorem C5_register_then_login_witness :
    (∀ u ∈ dbC.users, u.username ≠ "carol") ∧
    dbC.users.Pairwise (fun a b => a.username ≠ b.username) ∧
    (register "carol" "pw3" dbC).1 = ⟨201, .message "User created"⟩ ∧
    login "carol" "pw3" 0 (register "carol" "pw3" dbC).2 =
      (⟨200, .token (jwtEncode (nextUserId dbC) (0 + 3600) SECRET_KEY)⟩,
       (register "carol" "pw3" dbC).2) :=
  ⟨by decide, by decide,
   (C5_register_then_login "carol" "pw3" 0 dbC (by decide) (by decide)).1,
   (C5_register_then_login "carol" "pw3" 0 dbC (by decide) (by decide)).2.1⟩

/-- Witness for C6: a title-only update of post 1 keeps its content. -/
theorem C6_partial_update_merge_witness :
    (updatePostRoute (some tokC) 0 1
        ⟨some (some "X"), none⟩ dbC).2.posts[0]? =
      some ⟨1, some "X", some "C", some 1⟩ :=
  (C6_partial_update_merge tokC 0 1 2 ⟨some (some "X"), none⟩ dbC
      (by decide) (by decide)).2.2.2.2 0 ⟨1, some "Hi", some "C", some 1⟩
    (by decide) (by decide)

/-- Witness for C7: deleting the absent id 99 answers 404 and leaves the
store untouched; deleting the existing id 1 removes exactly that row. -/
theorem C7_notfound_and_delete_exact_witness :
    deletePostRoute (some tokC) 0 99 dbC =
      (⟨404, .error "Not found"⟩, dbC) ∧
    (deletePostRoute (some tokC) 0 1 dbC).2.posts =
      dbC.posts.filter (fun p => p.id ≠ 1) :=
  ⟨((C7_notfound_and_delete_exact tokC 0 99 2 dbC (by decide)).1
      (by decide)).1,
   ((C7_notfound_and_delete_exact tokC 0 1 2 dbC (by decide)).2
      (by decide)).2.2.1⟩

/-- Witness for C8 (amended) at the in-range page 2 of the 12-post
store. -/
theorem C8_pagination_amended_witness :
    get_posts 2 db12 = ⟨200, .posts
      (((db12.posts.drop ((2 - 1) * 5)).take 5).map postItem)⟩ :=
  (C8_pagination_amended db12 2).2.2.2.1 (by decide) (by decide)

/-- Witness for C9: user 2's token updates and deletes post 1, which is
owned by user 1. -/
theorem C9_no_ownership_check_witness :
    (updatePostRoute (some tokC) 0 1 ⟨some (some "X"), none⟩ dbC).1 =
      ⟨200, .message "Post updated"⟩ ∧
    (deletePostRoute (some tokC) 0 1 dbC).1 =
      ⟨200, .message "Post deleted"⟩ :=
  C9_no_ownership_check tokC 0 1 2 dbC ⟨some (some "X"), none⟩
    (by decide) (by decide)

/-- Witness for C10: updating post 1 with a body whose only key is a null
title nulls the stored title and keeps the content. -/
theorem C10_null_field_overwrites_witness :
    (updatePostRoute (some tokC) 0 1 ⟨some none, none⟩ dbC).2.posts[0]? =
      some ⟨1, none, some "C", some 1⟩ :=
  (C10_null_field_overwrites tokC 0 1 2 dbC (by decide) (by decide)).1 0
    ⟨1, some "Hi", some "C", some 1⟩ (by decide) (by decide)

end Backend
